import Mathlib

/-!
Verification of the AI-usage catalogue backend (`src/app`).

The Python source is shallowly embedded: each SQL query / route handler that a
claim touches is translated into an executable Lean definition over explicit
list-based states.  SQLite `REAL` columns are modelled exactly by `Rat` (the
claims are about *which* slots contribute to a sum, not about rounding);
`TEXT` columns are `String`; nullable columns are `Option`; a `TEXT` column
holding JSON that may or may not parse is `Option (Option _)` (`none` = SQL
NULL / empty string, `some none` = non-empty text that fails to decode,
`some (some v)` = text decoding to `v`).  Columns that no claim-relevant
query ever reads (timestamps, icons, per-slot `value`/`frequency` in the
dashboard queries) are omitted from the corresponding row structures.
-/

/-! ## Aggregation model (`crud.py`, dashboard queries)

One row of the `responses` table, restricted to the columns read by
`get_dashboard_summary`, `get_dashboard_impact_types` and
`get_dashboard_tools_used`.  The four denormalized impact slots are kept as
eight separate fields, exactly as in the schema (`database.py`). -/
structure AggEntry where
  id : Nat
  method_type : String
  impact1_type : Option String
  impact1_annual_value : Option Rat
  impact2_type : Option String
  impact2_annual_value : Option Rat
  impact3_type : Option String
  impact3_annual_value : Option Rat
  impact4_type : Option String
  impact4_annual_value : Option Rat
  tools_used : Option (Option (List Nat))
  other_tools : Option (Option (List String))
  deriving Repr, DecidableEq

/-- `COALESCE(SUM(CASE WHEN <ty col> = ty THEN <val col> ELSE 0 END), 0)`:
a row whose slot type matches contributes its annual value (SQL `SUM`
skips NULL, so a missing annual value contributes 0), any other row
contributes 0, and an empty table yields 0. -/
def impactCaseSum (getT : AggEntry → Option String) (getV : AggEntry → Option Rat)
    (ty : String) (rs : List AggEntry) : Rat :=
  (rs.map (fun r => if getT r = some ty then (getV r).getD 0 else 0)).sum

/-- `impact1_type = ty OR impact2_type = ty OR impact3_type = ty OR impact4_type = ty`. -/
def anySlotHasType (ty : String) (r : AggEntry) : Bool :=
  r.impact1_type == some ty || r.impact2_type == some ty ||
  r.impact3_type == some ty || r.impact4_type == some ty

/-- The shape returned by `crud.get_dashboard_summary` (`models.DashboardSummary`). -/
structure DashboardSummary where
  total_methods : Nat
  total_workflows : Nat
  total_tasks : Nat
  total_experiments : Nat
  total_cost_savings : Rat
  total_time_savings : Rat
  quality_count : Nat
  new_capability_count : Nat
  deriving Repr, DecidableEq

/-- `crud.get_dashboard_summary` (crud.py:419-465): method-type counts, the
four-term per-slot-column sums for cost/time savings, and `COUNT(*)` row
counts for quality / new_capability. -/
def get_dashboard_summary (rs : List AggEntry) : DashboardSummary :=
  { total_methods := rs.length
    total_workflows := rs.countP (fun r => r.method_type == "workflow")
    total_tasks := rs.countP (fun r => r.method_type == "task")
    total_experiments := rs.countP (fun r => r.method_type == "experiment")
    total_cost_savings :=
      impactCaseSum (·.impact1_type) (·.impact1_annual_value) "cost_savings" rs +
      impactCaseSum (·.impact2_type) (·.impact2_annual_value) "cost_savings" rs +
      impactCaseSum (·.impact3_type) (·.impact3_annual_value) "cost_savings" rs +
      impactCaseSum (·.impact4_type) (·.impact4_annual_value) "cost_savings" rs
    total_time_savings :=
      impactCaseSum (·.impact1_type) (·.impact1_annual_value) "time_savings" rs +
      impactCaseSum (·.impact2_type) (·.impact2_annual_value) "time_savings" rs +
      impactCaseSum (·.impact3_type) (·.impact3_annual_value) "time_savings" rs +
      impactCaseSum (·.impact4_type) (·.impact4_annual_value) "time_savings" rs
    quality_count := (rs.filter (anySlotHasType "quality")).length
    new_capability_count := (rs.filter (anySlotHasType "new_capability")).length }

/-- `SELECT COUNT(DISTINCT id) FROM responses WHERE <some slot has type ty>`
(crud.py:536-570). -/
def countDistinctIdWithType (ty : String) (rs : List AggEntry) : Nat :=
  ((rs.filter (anySlotHasType ty)).map (·.id)).dedup.length

/-- `crud.get_dashboard_impact_types` (crud.py:536-570): one labelled row per
impact type with a distinct-id count. -/
def get_dashboard_impact_types (rs : List AggEntry) : List (String × Nat) :=
  [("Cost Savings", countDistinctIdWithType "cost_savings" rs),
   ("Time Savings", countDistinctIdWithType "time_savings" rs),
   ("Quality Improvement", countDistinctIdWithType "quality" rs),
   ("New Capability", countDistinctIdWithType "new_capability" rs)]

/-! Spec-side notions for the aggregation claims. -/

/-- The four impact slots of an entry, as (type, annual_value) pairs. -/
def slotsOf (r : AggEntry) : List (Option String × Option Rat) :=
  [(r.impact1_type, r.impact1_annual_value),
   (r.impact2_type, r.impact2_annual_value),
   (r.impact3_type, r.impact3_annual_value),
   (r.impact4_type, r.impact4_annual_value)]

/-- Spec side: the sum of `slot.annual_value` over the 4 impact slots of one
entry whose slot type is `ty`, a missing annual value contributing 0. -/
def entrySlotSum (ty : String) (r : AggEntry) : Rat :=
  ((slotsOf r).map (fun s => if s.1 = some ty then s.2.getD 0 else 0)).sum

/-- Spec side: count of distinct entries having at least one slot of type `ty`. -/
def entriesWithTypeCount (ty : String) (rs : List AggEntry) : Nat :=
  rs.countP (fun r => (slotsOf r).any (fun s => s.1 == some ty))

/-! ## Python string primitives

`str.lower`, `str.strip` and `str.split(',')` are modelled directly over the
character list of a `String` (ASCII case folding and whitespace, which covers
every string the source compares); the list-level definitions evaluate by
kernel reduction, which the concrete witnesses rely on. -/

/-- `str.lower`, one character (ASCII). -/
def pyLowerChar (c : Char) : Char :=
  if 65 ≤ c.toNat ∧ c.toNat ≤ 90 then Char.ofNat (c.toNat + 32) else c

/-- `str.lower`. -/
def pyLower (s : String) : String :=
  ⟨s.data.map pyLowerChar⟩

/-- Python whitespace (ASCII). -/
def pySpace (c : Char) : Bool :=
  c = ' ' || c = '\t' || c = '\n' || c = '\r'

/-- `str.strip()`. -/
def pyStrip (s : String) : String :=
  ⟨((s.data.dropWhile pySpace).reverse.dropWhile pySpace).reverse⟩

/-- Worker for `str.split(',')`. -/
def pySplitCommaAux : List Char → List Char → List String
  | [], acc => [⟨acc.reverse⟩]
  | c :: cs, acc =>
    if c = ',' then ⟨acc.reverse⟩ :: pySplitCommaAux cs [] else pySplitCommaAux cs (c :: acc)

/-- `str.split(',')`. -/
def pySplitComma (s : String) : List String :=
  pySplitCommaAux s.data []

/-! ## Tools-used breakdown (`crud.get_dashboard_tools_used`, crud.py:573-617) -/

/-- `tool_counts[name] = tool_counts.get(name, 0) + 1`, the counting dict as a
function. -/
def bumpCount (m : String → Nat) (k : String) : String → Nat :=
  fun x => if x = k then m x + 1 else m x

/-- The body of the per-tool-id loop (crud.py:599-610): resolve the id against
the active-tool map with fallback label `"Unknown"`; when the resolved name is
case-insensitively `"Other"` and `other_tools` is truthy, tally the decoded
free-text names (or the literal `"Other"` when that inner decode fails)
instead of the resolved name. -/
def countOneTool (tools : List (Nat × String)) (other_tools : Option (Option (List String)))
    (m : String → Nat) (tid : Nat) : String → Nat :=
  let tool_name := (tools.lookup tid).getD "Unknown"
  if pyLower tool_name = "other" then
    match other_tools with
    | some (some other_names) => other_names.foldl bumpCount m
    | some none => bumpCount m "Other"
    | none => bumpCount m tool_name
  else bumpCount m tool_name

/-- `crud.get_dashboard_tools_used`, up to the final sort: the `tool_counts`
dict.  A row whose `tools_used` is falsy is skipped, a row whose `tools_used`
fails to decode is silently dropped (`except: pass`), otherwise every decoded
id is tallied through `countOneTool`. -/
def get_dashboard_tools_used_counts (tools : List (Nat × String)) (rs : List AggEntry) :
    String → Nat :=
  rs.foldl
    (fun m r =>
      match r.tools_used with
      | none => m
      | some none => m
      | some (some tool_ids) => tool_ids.foldl (countOneTool tools r.other_tools) m)
    (fun _ => 0)

/-- Spec side: the bucket labels a single tool id contributes, per the claim:
a free-text name bucket for each `other_tools` name when the id resolves to
the sentinel "Other", the literal `"Unknown"` for an id that does not resolve,
the resolved name otherwise. -/
def idLabels (tools : List (Nat × String)) (other_tools : Option (Option (List String)))
    (tid : Nat) : List String :=
  match tools.lookup tid with
  | none => ["Unknown"]
  | some name =>
    if pyLower name = "other" then
      match other_tools with
      | some (some other_names) => other_names
      | some none => ["Other"]
      | none => [name]
    else [name]

/-- Spec side: all bucket labels one entry contributes; an entry whose
`tools_used` does not decode contributes none. -/
def entryToolLabels (tools : List (Nat × String)) (r : AggEntry) : List String :=
  match r.tools_used with
  | some (some tool_ids) => tool_ids.flatMap (idLabels tools r.other_tools)
  | _ => []

/-- Spec side: the tally of bucket `k` is the number of occurrences of `k`
among the labels contributed by all entries. -/
def toolCountsSpec (tools : List (Nat × String)) (rs : List AggEntry) (k : String) : Nat :=
  (rs.flatMap (entryToolLabels tools)).count k

/-! ## Taxonomy / reassignment store (`crud.py`, `routes/config.py`)

Rows of the `functions`, `teams` and `responses` tables restricted to the
columns the configuration operations read. -/

structure FunctionRow where
  id : Nat
  name : String
  active : Bool
  deriving Repr, DecidableEq

structure TeamRow where
  id : Nat
  function_id : Nat
  name : String
  active : Bool
  deriving Repr, DecidableEq

structure EntryRef where
  id : Nat
  function_id : Nat
  team_id : Option Nat
  capability_id : Nat
  deriving Repr, DecidableEq

structure ConfigStore where
  functions : List FunctionRow
  teams : List TeamRow
  responses : List EntryRef
  deriving Repr, DecidableEq

/-- `crud.delete_function` (crud.py:185-201): fail (store untouched) when any
team or any response references the function, otherwise delete the row;
the returned flag is `rowcount > 0`. -/
def delete_function (store : ConfigStore) (function_id : Nat) : Bool × ConfigStore :=
  if store.teams.countP (fun t => t.function_id == function_id) > 0 then (false, store)
  else if store.responses.countP (fun r => r.function_id == function_id) > 0 then (false, store)
  else
    (store.functions.any (fun f => f.id == function_id),
     { store with functions := store.functions.filter (fun f => f.id != function_id) })

inductive MoveOutcome where
  | ok (migrated : Nat)
  | teamNotFound
  | crossFunctionReassignment
  deriving Repr, DecidableEq

/-- Modelled from the spec: `crud.move_team_entries_and_delete` is called by
`routes/config.py:116-122` but is not defined under `src/`.  Spec §4.4: look
the team up; a non-null target must be another Team of the same Function
(CrossFunctionReassignment otherwise); migrate every dependent Entry's
`team_id` to the target (or to null) atomically with the Team deletion and
return the count migrated; no partial side effects are observable on failure.
PartialMigration cannot arise in this atomic model and is omitted. -/
def move_team_entries_and_delete (store : ConfigStore) (team_id : Nat)
    (target_team_id : Option Nat) : MoveOutcome × ConfigStore :=
  match store.teams.find? (fun t => t.id == team_id) with
  | none => (.teamNotFound, store)
  | some t =>
    let doMigrate : Option Nat → MoveOutcome × ConfigStore := fun tgt =>
      (.ok (store.responses.countP (fun r => r.team_id == some team_id)),
       { store with
         responses := store.responses.map (fun r =>
           if r.team_id == some team_id then { r with team_id := tgt } else r),
         teams := store.teams.filter (fun x => x.id != team_id) })
    match target_team_id with
    | none => doMigrate none
    | some sid =>
      match store.teams.find? (fun s => s.id == sid) with
      | none => (.crossFunctionReassignment, store)
      | some s =>
        if s.function_id == t.function_id && s.id != t.id then doMigrate (some sid)
        else (.crossFunctionReassignment, store)

/-! ## Taxonomy import (`routes/export_import.py:415-470`) -/

/-- Modelled from the spec: `crud.create_function_by_name` is called by
the import route but is not defined under `src/`; per spec §4.1 `create` inserts
a new Function row with the given name (AUTOINCREMENT id, active). -/
def create_function_by_name (store : ConfigStore) (name : String) : ConfigStore :=
  { store with
    functions := store.functions ++
      [{ id := (store.functions.map (·.id)).foldr max 0 + 1, name := name, active := true }] }

/-- Modelled from the spec: `crud.clear_functions` is called by the import
route in `replace` mode but is not defined under `src/`; per spec §4.5 replace
mode clears the entire target collection. -/
def clear_functions (store : ConfigStore) : ConfigStore :=
  { store with functions := [] }

structure TaxImportResult where
  success : Nat
  skipped : Nat
  errors : List (Nat × String)
  total_rows : Nat
  deriving Repr, DecidableEq

/-- Accumulator of the row loop of `import_functions`. -/
structure FnScan where
  existing : List String
  skipped : Nat
  errors : List (Nat × String)
  new_functions : List String
  deriving Repr, DecidableEq

/-- The row loop of `import_functions` (export_import.py:444-455): an empty
(stripped) name is a row error; a name whose lowercase form is already known
is skipped; otherwise the name is staged and its lowercase form remembered. -/
def scanFunctionRows : List (Nat × String) → FnScan → FnScan
  | [], st => st
  | (n, raw) :: rest, st =>
    let name := pyStrip raw
    if name = "" then
      scanFunctionRows rest { st with errors := st.errors ++ [(n, "Missing name")] }
    else if st.existing.contains (pyLower name) then
      scanFunctionRows rest { st with skipped := st.skipped + 1 }
    else
      scanFunctionRows rest
        { st with
          new_functions := st.new_functions ++ [name],
          existing := st.existing ++ [pyLower name] }

/-- `import_functions` (export_import.py:415-470): rows are name cells,
numbered from 2; the known-name set is seeded from the *active* functions;
`replace` clears the collection first; every staged name is created. -/
def import_functions (store : ConfigStore) (rows : List String) (mode : String) :
    TaxImportResult × ConfigStore :=
  let st := scanFunctionRows (rows.enumFrom 2)
    { existing := (store.functions.filter (·.active)).map (fun f => pyLower f.name),
      skipped := 0, errors := [], new_functions := [] }
  let base := if mode = "replace" then clear_functions store else store
  ({ success := st.new_functions.length, skipped := st.skipped, errors := st.errors,
     total_rows := st.new_functions.length + st.skipped + st.errors.length },
   st.new_functions.foldl create_function_by_name base)

/-! ## Partial update of an entry (`crud.update_response`, crud.py:374-404)

`update_response` is dynamic: it iterates the dict of fields *present* in the
pydantic payload and builds the SQL `SET` clause from the non-null ones.  A
row is therefore modelled as a column-name-indexed map of nullable values
(plus the `updated_at` column), and a payload as the list of present
`(column, nullable value)` pairs. -/

structure ResponseRow where
  fields : String → Option String
  updated_at : String

/-- `crud.update_response`: keep only the pairs whose value is non-null; with
none left, return the row untouched; otherwise overwrite exactly those
columns and set `updated_at` to the operation time. -/
def update_response (now : String) (upd : List (String × Option String))
    (row : ResponseRow) : ResponseRow :=
  let update_fields := upd.filter (fun p => p.2.isSome)
  if update_fields.isEmpty then row
  else
    { fields := fun c =>
        match update_fields.lookup c with
        | some v => v
        | none => row.fields c,
      updated_at := now }

/-! ## Entry bulk import (`routes/export_import.py:139-308`)

A CSV row is the `csv.DictReader` dict: one string cell per header column
(a missing column reads as the empty string).  The numeric-cell parser
(`float` with `ValueError → None`) is passed in as a parameter `pf`. -/

deriving instance DecidableEq for Except

/-- The six `impact{i}_*` cells of one slot group. -/
structure ImpactCsv where
  type : String := ""
  value : String := ""
  frequency : String := ""
  time_unit : String := ""
  annual_value : String := ""
  description : String := ""
  deriving Repr, DecidableEq

structure CsvRow where
  function : String := ""
  team : String := ""
  capability : String := ""
  method_type : String := ""
  capability_other : String := ""
  description : String := ""
  tools : String := ""
  other_tools : String := ""
  submitted_by : String := ""
  impacts : Fin 4 → ImpactCsv := fun _ => {}

/-- The request-scoped name→id lookup dicts built at export_import.py:164-174
(keys already lowercased; teams scoped per function id). -/
structure ImportCtx where
  functions : List (String × Nat)
  teams_by_func : Nat → List (String × Nat)
  capabilities : List (String × Nat)
  tools : List (String × Nat)

/-- Python truthiness of a looked-up id (`if not function_id`): `None` and
`0` are falsy. -/
def pyTruthyId (o : Option Nat) : Bool :=
  match o with
  | some n => n != 0
  | none => false

/-- `row.get(k, '').strip() or None`. -/
def stripOrNone (s : String) : Option String :=
  let t := pyStrip s
  if t = "" then none else some t

/-- One staged impact slot of `response_data` (export_import.py:264-290). -/
structure StagedImpact where
  type : Option String
  value : Option Rat
  frequency : Option String
  time_unit : Option String
  annual_value : Option Rat
  description : Option String
  deriving Repr, DecidableEq

/-- The staged `response_data` dict of a validated row (export_import.py:251-292). -/
structure StagedResponse where
  function_id : Option Nat
  team_id : Option Nat
  method_type : String
  capability_id : Option Nat
  capability_other : Option String
  description : String
  tools_used : List Nat
  other_tools : Option (List String)
  submitted_by : Option String
  impacts : Fin 4 → StagedImpact
  deriving DecidableEq

/-- Impact-group parsing (export_import.py:264-290): an invalid impact type or
frequency silently becomes null; an empty or unparsable numeric cell becomes
null. -/
def parseImpact (pf : String → Option Rat) (c : ImpactCsv) : StagedImpact :=
  let itype := match stripOrNone c.type with
    | some t =>
      if t ∈ ["cost_savings", "time_savings", "quality", "new_capability"] then some t else none
    | none => none
  let freq := match stripOrNone c.frequency with
    | some f => if f ∈ ["one_time", "daily", "weekly", "monthly"] then some f else none
    | none => none
  let pnum : String → Option Rat := fun s =>
    let v := pyStrip s
    if v = "" then none else pf v
  { type := itype, value := pnum c.value, frequency := freq,
    time_unit := stripOrNone c.time_unit, annual_value := pnum c.annual_value,
    description := stripOrNone c.description }

/-- Per-row validation and staging (export_import.py:188-292).  All of a
row's errors are collected, in source order: function, team, capability,
method_type, one per unresolvable tool, description.  A row with errors
yields them; an error-free row yields its staged record. -/
def processRow (pf : String → Option Rat) (ctx : ImportCtx) (row : CsvRow) :
    Except (List String) StagedResponse :=
  let func_name := pyStrip row.function
  let function_id : Option Nat :=
    if func_name = "" then none else ctx.functions.lookup (pyLower func_name)
  let errs_function : List String :=
    if func_name = "" then ["Missing function"]
    else if pyTruthyId function_id then [] else ["Unknown function: " ++ func_name]
  let team_name := pyStrip row.team
  let team_id : Option Nat :=
    if team_name != "" && pyTruthyId function_id then
      (ctx.teams_by_func (function_id.getD 0)).lookup (pyLower team_name)
    else none
  let errs_team : List String :=
    if team_name != "" && pyTruthyId function_id && !pyTruthyId team_id then
      ["Unknown team: " ++ team_name ++ " (for function " ++ func_name ++ ")"]
    else []
  let cap_name := pyStrip row.capability
  let capability_id : Option Nat :=
    if cap_name = "" then none else ctx.capabilities.lookup (pyLower cap_name)
  let errs_capability : List String :=
    if cap_name = "" then ["Missing capability"]
    else if pyTruthyId capability_id then [] else ["Unknown capability: " ++ cap_name]
  let method_type := pyLower (pyStrip row.method_type)
  let errs_method : List String :=
    if method_type ∈ ["workflow", "task", "experiment"] then []
    else ["Invalid method_type: " ++ method_type]
  let tools_str := pyStrip row.tools
  let toolPieces : List String :=
    if tools_str = "" then [] else (pySplitComma tools_str).map pyStrip
  let tool_ids : List Nat := toolPieces.filterMap (fun tn =>
    if tn != "" then
      let tid := ctx.tools.lookup (pyLower tn)
      if pyTruthyId tid then tid else none
    else none)
  let errs_tools : List String := toolPieces.filterMap (fun tn =>
    if tn != "" && !pyTruthyId (ctx.tools.lookup (pyLower tn)) then
      some ("Unknown tool: " ++ tn)
    else none)
  let other_tools_str := pyStrip row.other_tools
  let other_tools_list : List String :=
    if other_tools_str = "" then []
    else ((pySplitComma other_tools_str).map pyStrip).filter (fun t => t != "")
  let description := pyStrip row.description
  let errs_description : List String := if description = "" then ["Missing description"] else []
  let errors :=
    errs_function ++ errs_team ++ errs_capability ++ errs_method ++ errs_tools ++ errs_description
  if errors.isEmpty then
    .ok { function_id := function_id, team_id := team_id, method_type := method_type,
          capability_id := capability_id,
          capability_other := stripOrNone row.capability_other,
          description := description,
          tools_used := tool_ids,
          other_tools := if other_tools_list.isEmpty then none else some other_tools_list,
          submitted_by := stripOrNone row.submitted_by,
          impacts := fun i => parseImpact pf (row.impacts i) }
  else .error errors

structure EntryImportResult where
  success : Nat
  errors : List (Nat × List String)
  total_rows : Nat
  deriving Repr, DecidableEq

/-- `import_responses` (export_import.py:139-308): rows are numbered from 2;
failing rows are recorded with their collected errors and the loop continues;
`replace` with a nonempty staging list clears the collection first; every
staged row is then committed.  The commit helpers `crud.clear_all_responses`
and `crud.create_response_from_dict` are not under `src/` and are modelled
from the spec (clear the Entry collection; insert one staged row, and a
modelled insert always succeeds). -/
def import_responses (pf : String → Option Rat) (ctx : ImportCtx) (mode : String)
    (rows : List CsvRow) (existing : List StagedResponse) :
    EntryImportResult × List StagedResponse :=
  let scanned := (rows.enumFrom 2).foldl
    (fun (acc : List (Nat × List String) × List StagedResponse) p =>
      match processRow pf ctx p.2 with
      | .error es => (acc.1 ++ [(p.1, es)], acc.2)
      | .ok staged => (acc.1, acc.2 ++ [staged]))
    ([], [])
  let rows_to_import := scanned.2
  let base := if mode = "replace" && !rows_to_import.isEmpty then [] else existing
  ({ success := rows_to_import.length, errors := scanned.1,
     total_rows := rows_to_import.length + scanned.1.length },
   base ++ rows_to_import)

/-! ## Entry export (`routes/export_import.py:40-134` and `crud.get_responses`) -/

/-- One row of the `responses` table as read by the export path. -/
structure RespX where
  id : Nat
  function_id : Nat
  team_id : Option Nat
  capability_id : Nat
  method_type : String
  capability_other : Option String
  description : String
  tools_used : Option (Option (List Nat))
  other_tools : Option (Option (List String))
  submitted_by : Option String
  submitted_at : Nat
  deriving Repr, DecidableEq

/-- Insert into a descending-by-key list. -/
def insertByDesc {α : Type} (key : α → Nat) (x : α) : List α → List α
  | [] => [x]
  | y :: ys => if key x ≥ key y then x :: y :: ys else y :: insertByDesc key x ys

/-- `ORDER BY <key> DESC` as an insertion sort. -/
def sortByDesc {α : Type} (key : α → Nat) (xs : List α) : List α :=
  xs.foldr (insertByDesc key) []

/-- `crud.get_responses` (crud.py:271-313): order by `submitted_at`
descending, then `LIMIT ? OFFSET ?` — the limit defaults to 100 and the
offset to 0, also when called without arguments as the export route does. -/
def get_responses (rs : List RespX) (limit : Nat := 100) (offset : Nat := 0) : List RespX :=
  ((sortByDesc (fun r => r.submitted_at) rs).drop offset).take limit

/-- `', '.join`. -/
def joinComma : List String → String
  | [] => ""
  | [x] => x
  | x :: xs => x ++ ", " ++ joinComma xs

/-- One exported CSV row, restricted to the name-resolved columns (the
impact and metadata columns are verbatim copies of the entry's fields and
are not read by any claim). -/
structure FlatEntry where
  id : Nat
  function : String
  team : String
  method_type : String
  capability : String
  description : String
  tools : String
  other_tools : String
  deriving Repr, DecidableEq

/-- `export_responses` (export_import.py:40-134): the rows come from
`crud.get_responses()` called with no arguments; every foreign key is
rendered as its resolved name (active-only lookup maps, id keys), tool ids
with an `Unknown(id)` fallback, lists comma-joined. -/
def export_responses (functions teams capabilities tools : List (Nat × String))
    (rs : List RespX) : List FlatEntry :=
  (get_responses rs).map (fun r =>
    let tool_names : List String :=
      match r.tools_used with
      | some (some tool_ids) =>
        tool_ids.map (fun tid => (tools.lookup tid).getD ("Unknown(" ++ toString tid ++ ")"))
      | _ => []
    let other_tools_list : List String :=
      match r.other_tools with
      | some (some names) => names
      | _ => []
    { id := r.id,
      function := (functions.lookup r.function_id).getD "",
      team := (r.team_id.bind (fun tid => teams.lookup tid)).getD "",
      method_type := r.method_type,
      capability := (capabilities.lookup r.capability_id).getD "",
      description := r.description,
      tools := joinComma tool_names,
      other_tools := if other_tools_list.isEmpty then "" else joinComma other_tools_list })

/-! ## Concrete stores and rows used by witnesses and counterexamples -/

/-- An entry with two slots both typed `quality`. -/
def e2q : AggEntry :=
  { id := 1, method_type := "task",
    impact1_type := some "quality", impact1_annual_value := none,
    impact2_type := some "quality", impact2_annual_value := none,
    impact3_type := none, impact3_annual_value := none,
    impact4_type := none, impact4_annual_value := none,
    tools_used := none, other_tools := none }

/-- A Function with two sibling Teams and three Entries filed under the first. -/
def mvStore : ConfigStore :=
  { functions := [{ id := 1, name := "Sales", active := true }],
    teams := [{ id := 1, function_id := 1, name := "NA", active := true },
              { id := 2, function_id := 1, name := "EMEA", active := true }],
    responses := [{ id := 1, function_id := 1, team_id := some 1, capability_id := 1 },
                  { id := 2, function_id := 1, team_id := some 1, capability_id := 1 },
                  { id := 3, function_id := 1, team_id := some 1, capability_id := 1 }] }

/-- A Function with no dependents. -/
def delStoreFree : ConfigStore :=
  { functions := [{ id := 5, name := "HR", active := true }], teams := [], responses := [] }

/-- The same Function with one dependent Team. -/
def delStoreDep : ConfigStore :=
  { functions := [{ id := 5, name := "HR", active := true }],
    teams := [{ id := 9, function_id := 5, name := "People Ops", active := true }],
    responses := [] }

/-- A response row with every nullable column null. -/
def r0 : ResponseRow := { fields := fun _ => none, updated_at := "2024-01-01T00:00:00" }

/-- A response row whose `team_id` column is set. -/
def r1 : ResponseRow :=
  { fields := fun c => if c = "team_id" then some "7" else none, updated_at := "t0" }

/-- The numeric parser instance used by concrete import examples. -/
def pfNone : String → Option Rat := fun _ => none

/-- Lookup context for the import-tolerance example: a `Sales` function and a
`Drafting` capability exist, no teams, no tools. -/
def exCtx : ImportCtx :=
  { functions := [("sales", 1)], teams_by_func := fun _ => [],
    capabilities := [("drafting", 1)], tools := [] }

/-- The spec's failing row 2: valid function and capability, bogus
method_type, missing description. -/
def exRow2 : CsvRow := { function := "Sales", capability := "Drafting", method_type := "bogus" }

/-- A well-formed row 3 in the same file. -/
def exRow3 : CsvRow :=
  { function := "Sales", capability := "Drafting", method_type := "task",
    description := "Wrote a draft" }

/-- What row 3 stages to. -/
def exStaged3 : StagedResponse :=
  { function_id := some 1, team_id := none, method_type := "task",
    capability_id := some 1, capability_other := none, description := "Wrote a draft",
    tools_used := [], other_tools := none, submitted_by := none,
    impacts := fun _ =>
      { type := none, value := none, frequency := none, time_unit := none,
        annual_value := none, description := none } }

/-- An Entry collection with 101 rows (clean taxonomy references). -/
def store101 : List RespX :=
  (List.range 101).map (fun i =>
    { id := i + 1, function_id := 1, team_id := none, capability_id := 1,
      method_type := "task", capability_other := none, description := "d",
      tools_used := none, other_tools := none, submitted_by := none, submitted_at := i })

/-- A taxonomy store with one pre-existing function, for the merge-import witness. -/
def impStore : ConfigStore :=
  { functions := [{ id := 1, name := "Existing", active := true }], teams := [], responses := [] }

/-! ## Theorems -/

theorem impactCaseSum_cons (getT getV ty r) (rs : List AggEntry) :
    impactCaseSum getT getV ty (r :: rs) =
      (if getT r = some ty then (getV r).getD 0 else 0) + impactCaseSum getT getV ty rs := by
  simp [impactCaseSum]

theorem anySlot_eq_slots_any (ty : String) (r : AggEntry) :
    anySlotHasType ty r = (slotsOf r).any (fun s => s.1 == some ty) := by
  simp [anySlotHasType, slotsOf, List.any, Bool.or_assoc]

theorem fourColumnSum_eq_slotSum (ty : String) (rs : List AggEntry) :
    impactCaseSum (·.impact1_type) (·.impact1_annual_value) ty rs +
    impactCaseSum (·.impact2_type) (·.impact2_annual_value) ty rs +
    impactCaseSum (·.impact3_type) (·.impact3_annual_value) ty rs +
    impactCaseSum (·.impact4_type) (·.impact4_annual_value) ty rs =
    (rs.map (entrySlotSum ty)).sum := by
  induction rs with
  | nil => simp [impactCaseSum]
  | cons r rs ih =>
    simp only [impactCaseSum_cons, List.map_cons, List.sum_cons]
    rw [← ih]
    simp only [entrySlotSum, slotsOf, List.map_cons, List.map_nil, List.sum_cons,
      List.sum_nil]
    ring

/-- C1: the dashboard Summary's `total_cost_savings` (resp.
`total_time_savings`) is the sum of `annual_value` over all entries and all 4
impact slots whose type is `cost_savings` (resp. `time_savings`) — a
slot-sum, with a missing annual value contributing 0 (the contribution `0`
for a missing value is built into `entrySlotSum`). -/
theorem c1_summary_totals_are_slot_sums (rs : List AggEntry) :
    (get_dashboard_summary rs).total_cost_savings = (rs.map (entrySlotSum "cost_savings")).sum ∧
    (get_dashboard_summary rs).total_time_savings = (rs.map (entrySlotSum "time_savings")).sum :=
  ⟨fourColumnSum_eq_slotSum "cost_savings" rs, fourColumnSum_eq_slotSum "time_savings" rs⟩

theorem anySlot_funext (ty : String) :
    anySlotHasType ty = fun r => (slotsOf r).any (fun s => s.1 == some ty) :=
  funext (anySlot_eq_slots_any ty)

theorem filterLen_eq_entriesWithTypeCount (ty : String) (rs : List AggEntry) :
    (rs.filter (anySlotHasType ty)).length = entriesWithTypeCount ty rs := by
  rw [← List.countP_eq_length_filter, entriesWithTypeCount, anySlot_funext]

theorem countDistinctId_eq_entriesWithTypeCount (ty : String) (rs : List AggEntry)
    (h : (rs.map (fun r => r.id)).Nodup) :
    countDistinctIdWithType ty rs = entriesWithTypeCount ty rs := by
  have hsub : List.Sublist ((rs.filter (anySlotHasType ty)).map (fun r => r.id))
      (rs.map (fun r => r.id)) :=
    (List.filter_sublist rs).map _
  have hnd : ((rs.filter (anySlotHasType ty)).map (fun r => r.id)).Nodup := h.sublist hsub
  rw [countDistinctIdWithType, List.Nodup.dedup hnd, List.length_map,
    filterLen_eq_entriesWithTypeCount]

/-- C2: with pairwise-distinct entry ids (the primary-key invariant),
`quality_count` and `new_capability_count` in the Summary and every count in
the impact-type breakdown are counts of distinct entries having at least one
slot of the respective type, so an entry with two slots of the same type
contributes 1, not 2. -/
theorem c2_counts_are_entry_distinct (rs : List AggEntry)
    (h : (rs.map (fun r => r.id)).Nodup) :
    (get_dashboard_summary rs).quality_count = entriesWithTypeCount "quality" rs ∧
    (get_dashboard_summary rs).new_capability_count = entriesWithTypeCount "new_capability" rs ∧
    get_dashboard_impact_types rs =
      [("Cost Savings", entriesWithTypeCount "cost_savings" rs),
       ("Time Savings", entriesWithTypeCount "time_savings" rs),
       ("Quality Improvement", entriesWithTypeCount "quality" rs),
       ("New Capability", entriesWithTypeCount "new_capability" rs)] := by
  refine ⟨filterLen_eq_entriesWithTypeCount "quality" rs,
    filterLen_eq_entriesWithTypeCount "new_capability" rs, ?_⟩
  simp [get_dashboard_impact_types, countDistinctId_eq_entriesWithTypeCount _ rs h]

/-- Witness for C2 at a concrete store: a single entry with two `quality`
slots yields `quality_count = 1`. -/
theorem c2_counts_are_entry_distinct_witness :
    (get_dashboard_summary [e2q]).quality_count = 1 ∧
    get_dashboard_impact_types [e2q] =
      [("Cost Savings", 0), ("Time Savings", 0), ("Quality Improvement", 1),
       ("New Capability", 0)] := by
  have h : ([e2q].map (fun r => r.id)).Nodup := by decide
  constructor
  · rw [(c2_counts_are_entry_distinct [e2q] h).1]; decide
  · rw [(c2_counts_are_entry_distinct [e2q] h).2.2]; decide

theorem foldl_bump_apply (names : List String) (m : String → Nat) (x : String) :
    names.foldl bumpCount m x = m x + names.count x := by
  induction names generalizing m with
  | nil => simp
  | cons n ns ih =>
    rw [List.foldl_cons, ih, List.count_cons]
    by_cases h : x = n
    · simp [bumpCount, h]
      omega
    · simp [bumpCount, h, Ne.symm h]

theorem countOneTool_apply (tools : List (Nat × String))
    (ot : Option (Option (List String))) (m : String → Nat) (tid : Nat) (x : String) :
    countOneTool tools ot m tid x = m x + (idLabels tools ot tid).count x := by
  unfold countOneTool idLabels
  cases hl : tools.lookup tid with
  | none =>
    rw [Option.getD_none, if_neg (by decide)]
    by_cases h : x = "Unknown"
    · simp [bumpCount, h, List.count_cons]
    · simp [bumpCount, h, Ne.symm h, List.count_cons]
  | some name =>
    rw [Option.getD_some]
    dsimp only
    by_cases ho : pyLower name = "other"
    · rw [if_pos ho, if_pos ho]
      cases ot with
      | none =>
        by_cases h : x = name
        · simp [bumpCount, h, List.count_cons]
        · simp [bumpCount, h, Ne.symm h, List.count_cons]
      | some o =>
        cases o with
        | none =>
          by_cases h : x = "Other"
          · simp [bumpCount, h, List.count_cons]
          · simp [bumpCount, h, Ne.symm h, List.count_cons]
        | some other_names => exact foldl_bump_apply other_names m x
    · rw [if_neg ho, if_neg ho]
      by_cases h : x = name
      · simp [bumpCount, h, List.count_cons]
      · simp [bumpCount, h, Ne.symm h, List.count_cons]

theorem foldl_countOneTool_apply (tools : List (Nat × String))
    (ot : Option (Option (List String))) (tool_ids : List Nat) (m : String → Nat)
    (x : String) :
    tool_ids.foldl (countOneTool tools ot) m x
      = m x + (tool_ids.flatMap (idLabels tools ot)).count x := by
  induction tool_ids generalizing m with
  | nil => simp
  | cons i is ih =>
    rw [List.foldl_cons, ih, countOneTool_apply]
    simp [List.count_append]
    omega

/-- C8: for every store, the tools-used tally of every bucket equals the
claim-side count: each free-text `other_tools` name of an entry whose tool id
resolves to a name case-insensitively equal to "Other" is its own bucket,
an individually unresolvable id is tallied under the literal `"Unknown"`,
and an entry whose `tools_used` fails to decode contributes nothing. -/
theorem c8_tools_used_buckets (tools : List (Nat × String)) (rs : List AggEntry)
    (k : String) :
    get_dashboard_tools_used_counts tools rs k = toolCountsSpec tools rs k := by
  unfold get_dashboard_tools_used_counts toolCountsSpec
  have main : ∀ m : String → Nat,
      (rs.foldl
        (fun m r =>
          match r.tools_used with
          | none => m
          | some none => m
          | some (some tool_ids) => tool_ids.foldl (countOneTool tools r.other_tools) m)
        m) k
      = m k + (rs.flatMap (entryToolLabels tools)).count k := by
    induction rs with
    | nil => intro m; simp
    | cons r rest ih =>
      intro m
      rw [List.foldl_cons, ih]
      have hstep :
          (match r.tools_used with
            | none => m
            | some none => m
            | some (some tool_ids) => tool_ids.foldl (countOneTool tools r.other_tools) m) k
          = m k + (entryToolLabels tools r).count k := by
        rcases hr : r.tools_used with _ | (_ | tool_ids) <;>
          simp [entryToolLabels, hr, foldl_countOneTool_apply]
      rw [hstep]
      simp [List.count_append]
      omega
  simpa using main (fun _ => 0)

/-- C6: deleting an existing Function succeeds exactly when no Team and no
Entry references it, and a failed delete leaves the whole store unchanged. -/
theorem c6_delete_function_guard (store : ConfigStore) (fid : Nat)
    (hex : ∃ f ∈ store.functions, f.id = fid) :
    ((delete_function store fid).1 = true ↔
      (∀ t ∈ store.teams, t.function_id ≠ fid) ∧
      (∀ r ∈ store.responses, r.function_id ≠ fid)) ∧
    ((delete_function store fid).1 = false → (delete_function store fid).2 = store) := by
  unfold delete_function
  by_cases ht : store.teams.countP (fun t => t.function_id == fid) > 0
  · have hex_t : ¬(∀ t ∈ store.teams, t.function_id ≠ fid) := by
      intro hall
      have : store.teams.countP (fun t => t.function_id == fid) = 0 :=
        List.countP_eq_zero.mpr (fun t htm => by simpa using hall t htm)
      omega
    simp [ht, hex_t]
  · by_cases hr : store.responses.countP (fun r => r.function_id == fid) > 0
    · have hex_r : ¬(∀ r ∈ store.responses, r.function_id ≠ fid) := by
        intro hall
        have : store.responses.countP (fun r => r.function_id == fid) = 0 :=
          List.countP_eq_zero.mpr (fun r hrm => by simpa using hall r hrm)
        omega
      simp [ht, hr, hex_r]
    · have hany : store.functions.any (fun f => f.id == fid) = true := by
        rcases hex with ⟨f, hf, hfid⟩
        exact List.any_eq_true.mpr ⟨f, hf, by simp [hfid]⟩
      have hta : ∀ t ∈ store.teams, t.function_id ≠ fid := by
        intro t htm
        have h0 : store.teams.countP (fun t => t.function_id == fid) = 0 := by omega
        have := List.countP_eq_zero.mp h0 t htm
        simpa using this
      have hra : ∀ r ∈ store.responses, r.function_id ≠ fid := by
        intro r hrm
        have h0 : store.responses.countP (fun r => r.function_id == fid) = 0 := by omega
        have := List.countP_eq_zero.mp h0 r hrm
        simpa using this
      rw [if_neg ht, if_neg hr]
      constructor
      · simp only [hany, true_iff]
        exact ⟨hta, hra⟩
      · intro hfalse
        rw [hany] at hfalse
        cases hfalse

/-- Witness for C6: the dependent-free store's Function is deleted; the store
with a dependent Team rejects the delete and is unchanged. -/
theorem c6_delete_function_guard_witness :
    (delete_function delStoreFree 5).1 = true ∧
    (delete_function delStoreDep 5).1 = false ∧
    (delete_function delStoreDep 5).2 = delStoreDep := by
  have h1 := c6_delete_function_guard delStoreFree 5 (by decide)
  have h2 := c6_delete_function_guard delStoreDep 5 (by decide)
  refine ⟨h1.1.mpr (by decide), ?_, ?_⟩
  · by_contra hb
    have htrue : (delete_function delStoreDep 5).1 = true := by
      revert hb; cases (delete_function delStoreDep 5).1 <;> simp
    have hc := h2.1.mp htrue
    revert hc; decide
  · apply h2.2
    by_contra hb
    have htrue : (delete_function delStoreDep 5).1 = true := by
      revert hb; cases (delete_function delStoreDep 5).1 <;> simp
    have hc := h2.1.mp htrue
    revert hc; decide

theorem find_team_by_id (ts : List TeamRow) (t : TeamRow) (hmem : t ∈ ts)
    (hnd : (ts.map (fun x => x.id)).Nodup) :
    ts.find? (fun x => x.id == t.id) = some t := by
  induction ts with
  | nil => cases hmem
  | cons a as ih =>
    rcases List.mem_cons.mp hmem with rfl | hmem'
    · simp [List.find?]
    · have hnd' := List.nodup_cons.mp hnd
      have hne : (a.id == t.id) = false := by
        refine beq_eq_false_iff_ne.mpr ?_
        intro he
        apply hnd'.1
        have hmm : t.id ∈ as.map (fun x => x.id) := List.mem_map_of_mem (fun x => x.id) hmem'
        show a.id ∈ as.map (fun x => x.id)
        rw [he]
        exact hmm
      rw [List.find?_cons_of_neg _ (by simp [hne]), ih hmem' hnd'.2]

theorem move_fail_frame (store : ConfigStore) (tid : Nat) (tgt : Option Nat)
    (h : ∀ n, (move_team_entries_and_delete store tid tgt).1 ≠ MoveOutcome.ok n) :
    (move_team_entries_and_delete store tid tgt).2 = store := by
  cases hf : store.teams.find? (fun x => x.id == tid) with
  | none => simp [move_team_entries_and_delete, hf]
  | some tt =>
    cases tgt with
    | none =>
      exact absurd (by simp [move_team_entries_and_delete, hf])
        (h (store.responses.countP (fun r => r.team_id == some tid)))
    | some sid =>
      cases hfs2 : store.teams.find? (fun x => x.id == sid) with
      | none => simp [move_team_entries_and_delete, hf, hfs2]
      | some ss =>
        by_cases hc : (ss.function_id == tt.function_id && ss.id != tt.id) = true
        · exact absurd (by simp [move_team_entries_and_delete, hf, hfs2, hc])
            (h (store.responses.countP (fun r => r.team_id == some tid)))
        · simp [move_team_entries_and_delete, hf, hfs2, hc]

/-- C3: for a Team `t` with a sibling `s` under the same Function,
move-and-delete with target `s.id` reports the number of dependent entries,
removes exactly `t` from the teams, rewrites every dependent entry's
`team_id` to `s.id` (all other entries and all entry ids untouched — nothing
lost or duplicated); with target null the same entries end with `team_id =
none`; and every failing call leaves the store exactly as it was. -/
theorem c3_move_and_delete_team (store : ConfigStore) (t s : TeamRow)
    (hmt : t ∈ store.teams) (hms : s ∈ store.teams)
    (hfn : s.function_id = t.function_id) (hne : s.id ≠ t.id)
    (hnd : (store.teams.map (fun x => x.id)).Nodup) :
    ((move_team_entries_and_delete store t.id (some s.id)).1 =
        MoveOutcome.ok (store.responses.countP (fun r => r.team_id == some t.id)) ∧
      (move_team_entries_and_delete store t.id (some s.id)).2.teams =
        store.teams.filter (fun x => x.id != t.id) ∧
      s ∈ (move_team_entries_and_delete store t.id (some s.id)).2.teams ∧
      (∀ x ∈ (move_team_entries_and_delete store t.id (some s.id)).2.teams, x.id ≠ t.id) ∧
      (move_team_entries_and_delete store t.id (some s.id)).2.responses =
        store.responses.map (fun r =>
          if r.team_id == some t.id then { r with team_id := some s.id } else r) ∧
      (move_team_entries_and_delete store t.id (some s.id)).2.responses.map (fun r => r.id) =
        store.responses.map (fun r => r.id)) ∧
    ((move_team_entries_and_delete store t.id none).1 =
        MoveOutcome.ok (store.responses.countP (fun r => r.team_id == some t.id)) ∧
      (move_team_entries_and_delete store t.id none).2.responses =
        store.responses.map (fun r =>
          if r.team_id == some t.id then { r with team_id := none } else r) ∧
      (move_team_entries_and_delete store t.id none).2.teams =
        store.teams.filter (fun x => x.id != t.id)) ∧
    (∀ tid tgt, (∀ n, (move_team_entries_and_delete store tid tgt).1 ≠ MoveOutcome.ok n) →
      (move_team_entries_and_delete store tid tgt).2 = store) := by
  have hft : store.teams.find? (fun x => x.id == t.id) = some t := find_team_by_id _ t hmt hnd
  have hfs : store.teams.find? (fun x => x.id == s.id) = some s := find_team_by_id _ s hms hnd
  have hcond : (s.function_id == t.function_id && s.id != t.id) = true := by
    simp [hfn, hne]
  refine ⟨⟨?_, ?_, ?_, ?_, ?_, ?_⟩, ⟨?_, ?_, ?_⟩, fun tid tgt h => move_fail_frame store tid tgt h⟩
  · simp [move_team_entries_and_delete, hft, hfs, hcond]
  · simp [move_team_entries_and_delete, hft, hfs, hcond]
  · simp only [move_team_entries_and_delete, hft, hfs, hcond, if_true]
    exact List.mem_filter.mpr ⟨hms, by simp [hne]⟩
  · intro x hx
    simp only [move_team_entries_and_delete, hft, hfs, hcond, if_true] at hx
    have := (List.mem_filter.mp hx).2
    simpa using this
  · simp [move_team_entries_and_delete, hft, hfs, hcond]
  · simp only [move_team_entries_and_delete, hft, hfs, hcond, if_true]
    rw [List.map_map]
    apply List.map_congr_left
    intro r _
    by_cases hc2 : r.team_id = some t.id <;> simp [hc2]
  · simp [move_team_entries_and_delete, hft]
  · simp [move_team_entries_and_delete, hft]
  · simp [move_team_entries_and_delete, hft]

/-- Witness for C3 at a concrete store: three dependent entries migrate to
the sibling team (or to no team), and the team row disappears. -/
theorem c3_move_and_delete_team_witness :
    (move_team_entries_and_delete mvStore 1 (some 2)).1 = MoveOutcome.ok 3 ∧
    (move_team_entries_and_delete mvStore 1 (some 2)).2.responses =
      [{ id := 1, function_id := 1, team_id := some 2, capability_id := 1 },
       { id := 2, function_id := 1, team_id := some 2, capability_id := 1 },
       { id := 3, function_id := 1, team_id := some 2, capability_id := 1 }] ∧
    (move_team_entries_and_delete mvStore 1 (some 2)).2.teams =
      [{ id := 2, function_id := 1, name := "EMEA", active := true }] ∧
    (move_team_entries_and_delete mvStore 1 none).2.responses =
      [{ id := 1, function_id := 1, team_id := none, capability_id := 1 },
       { id := 2, function_id := 1, team_id := none, capability_id := 1 },
       { id := 3, function_id := 1, team_id := none, capability_id := 1 }] := by
  have h := c3_move_and_delete_team mvStore
    { id := 1, function_id := 1, name := "NA", active := true }
    { id := 2, function_id := 1, name := "EMEA", active := true }
    (by decide) (by decide) (by decide) (by decide) (by decide)
  refine ⟨?_, ?_, ?_, ?_⟩
  · rw [h.1.1]; decide
  · rw [h.1.2.2.2.2.1]; decide
  · rw [h.1.2.1]; decide
  · rw [h.2.1.2.1]; decide

theorem lookup_filter_isSome_of_lookup_none (upd : List (String × Option String)) (c : String)
    (h : upd.lookup c = none) :
    (upd.filter (fun p => p.2.isSome)).lookup c = none := by
  induction upd with
  | nil => rfl
  | cons p rest ih =>
    obtain ⟨k1, v1⟩ := p
    rw [List.lookup_cons] at h
    by_cases hk : (c == k1) = true
    · rw [hk] at h
      exact absurd h (by simp)
    · rw [Bool.not_eq_true] at hk
      rw [hk] at h
      cases v1 with
      | none =>
        simp only [List.filter_cons, Option.isSome_none, if_false]
        exact ih h
      | some w =>
        simp only [List.filter_cons, Option.isSome_some, if_true, List.lookup_cons, hk]
        exact ih h

theorem lookup_filter_of_lookup_some (upd : List (String × Option String)) (c : String)
    (v : String) (h : upd.lookup c = some (some v)) :
    (upd.filter (fun p => p.2.isSome)).lookup c = some (some v) := by
  induction upd with
  | nil => cases h
  | cons p rest ih =>
    obtain ⟨k1, v1⟩ := p
    rw [List.lookup_cons] at h
    by_cases hk : (c == k1) = true
    · rw [hk] at h
      have hv : v1 = some v := by
        have h2 : some v1 = some (some v) := h
        cases h2
        rfl
      subst hv
      simp only [List.filter_cons, Option.isSome_some, if_true, List.lookup_cons, hk]
    · rw [Bool.not_eq_true] at hk
      rw [hk] at h
      cases v1 with
      | none =>
        simp only [List.filter_cons, Option.isSome_none, if_false]
        exact ih h
      | some w =>
        simp only [List.filter_cons, Option.isSome_some, if_true, List.lookup_cons, hk]
        exact ih h

theorem lookup_none_of_not_mem_keys (upd : List (String × Option String)) (c : String)
    (h : c ∉ upd.map Prod.fst) : upd.lookup c = none := by
  induction upd with
  | nil => rfl
  | cons p rest ih =>
    obtain ⟨k1, v1⟩ := p
    have h1 : ¬(c = k1) := fun he => h (by rw [he]; exact List.mem_cons_self _ _)
    have hk : (c == k1) = false := beq_eq_false_iff_ne.mpr h1
    rw [List.lookup_cons, hk]
    exact ih (fun hm => h (List.mem_cons_of_mem _ hm))

theorem lookup_value_isSome (l : List (String × Option String)) (c : String)
    (v : Option String) (hall : ∀ p ∈ l, p.2.isSome) (h : l.lookup c = some v) :
    v.isSome := by
  induction l with
  | nil => cases h
  | cons p rest ih =>
    obtain ⟨k1, v1⟩ := p
    rw [List.lookup_cons] at h
    by_cases hk : (c == k1) = true
    · rw [hk] at h
      have h2 : some v1 = some v := h
      cases h2
      exact hall _ (List.mem_cons_self _ _)
    · rw [Bool.not_eq_true] at hk
      rw [hk] at h
      exact ih (fun q hq => hall q (List.mem_cons_of_mem _ hq)) h

/-- C7 fails as stated on the code: `update_response` returns the row
untouched — `updated_at` included — when the payload holds no applicable
field, instead of always setting `updated_at` to the operation time. -/
theorem c7_updated_at_not_always_set_counterexample :
    (update_response "2024-06-01T00:00:00" [] r0).updated_at ≠ "2024-06-01T00:00:00" := by
  decide

/-- C7 (amended): only the fields present in the payload with a non-null
value are applied; every other column keeps its previous value; `updated_at`
is set to the operation time whenever at least one field is applied; a
payload with no non-null field leaves the row — `updated_at` included —
completely unchanged. -/
theorem c7_partial_update_behavior (now : String) (upd : List (String × Option String))
    (row : ResponseRow) :
    (∀ c, upd.lookup c = none →
      (update_response now upd row).fields c = row.fields c) ∧
    (∀ c v, upd.lookup c = some (some v) →
      (update_response now upd row).fields c = some v) ∧
    ((∃ p ∈ upd, p.2.isSome) → (update_response now upd row).updated_at = now) ∧
    ((∀ p ∈ upd, p.2 = none) → update_response now upd row = row) := by
  refine ⟨?_, ?_, ?_, ?_⟩
  · intro c hc
    unfold update_response
    by_cases he : (upd.filter (fun p => p.2.isSome)).isEmpty
    · rw [if_pos he]
    · rw [if_neg he]
      simp only
      rw [lookup_filter_isSome_of_lookup_none upd c hc]
  · intro c v hc
    unfold update_response
    have hlf := lookup_filter_of_lookup_some upd c v hc
    by_cases he : (upd.filter (fun p => p.2.isSome)).isEmpty
    · exfalso
      rw [List.isEmpty_iff] at he
      rw [he] at hlf
      cases hlf
    · rw [if_neg he]
      simp only
      rw [hlf]
  · intro ⟨p, hp, hps⟩
    have hmem : p ∈ upd.filter (fun p => p.2.isSome) := List.mem_filter.mpr ⟨hp, hps⟩
    have hne : ¬(upd.filter (fun p => p.2.isSome)).isEmpty := by
      rw [List.isEmpty_iff]
      exact fun he => by rw [he] at hmem; cases hmem
    unfold update_response
    rw [if_neg hne]
  · intro hall
    have he : upd.filter (fun p => p.2.isSome) = [] :=
      List.filter_eq_nil_iff.mpr (fun p hp => by rw [hall p hp]; decide)
    unfold update_response
    rw [he]
    rfl

/-- Witness for C7 (amended) at concrete inputs: a one-field payload is
applied, refreshes `updated_at` and leaves other columns alone; an
all-null payload leaves the row unchanged. -/
theorem c7_partial_update_behavior_witness :
    (update_response "t9" [("description", some "new")] r0).fields "description" = some "new" ∧
    (update_response "t9" [("description", some "new")] r0).updated_at = "t9" ∧
    (update_response "t9" [("description", some "new")] r0).fields "team_id" =
      r0.fields "team_id" ∧
    update_response "t9" [("submitted_by", none)] r0 = r0 := by
  have h := c7_partial_update_behavior "t9" [("description", some "new")] r0
  have h2 := c7_partial_update_behavior "t9" [("submitted_by", none)] r0
  refine ⟨h.2.1 "description" "new" (by decide), ?_, h.1 "team_id" (by decide),
    h2.2.2.2 (by decide)⟩
  exact h.2.2.1 ⟨("description", some "new"), by decide, by decide⟩

theorem lookup_filter_none_of_null_binding (upd : List (String × Option String)) (c : String)
    (hnd : (upd.map Prod.fst).Nodup) (hc : upd.lookup c = some none) :
    (upd.filter (fun p => p.2.isSome)).lookup c = none := by
  induction upd with
  | nil => cases hc
  | cons p rest ih =>
    obtain ⟨k1, v1⟩ := p
    rw [List.map_cons, List.nodup_cons] at hnd
    rw [List.lookup_cons] at hc
    by_cases hk : (c == k1) = true
    · rw [hk] at hc
      have hp2 : v1 = none := by
        have h2 : some v1 = some none := hc
        cases h2
        rfl
      subst hp2
      simp only [List.filter_cons, Option.isSome_none, if_false]
      apply lookup_filter_isSome_of_lookup_none
      apply lookup_none_of_not_mem_keys
      have hce : c = k1 := by simpa using hk
      rw [hce]
      exact hnd.1
    · rw [Bool.not_eq_true] at hk
      rw [hk] at hc
      cases v1 with
      | none =>
        simp only [List.filter_cons, Option.isSome_none, if_false]
        exact ih hnd.2 hc
      | some w =>
        simp only [List.filter_cons, Option.isSome_some, if_true, List.lookup_cons, hk]
        exact ih hnd.2 hc

/-- C10: a field whose provided value is null is ignored by the partial
update (the stored value is unchanged), and no column that held a value can
end up null after an update. -/
theorem c10_null_fields_ignored (now : String) (upd : List (String × Option String))
    (row : ResponseRow) :
    ((upd.map Prod.fst).Nodup → ∀ c, upd.lookup c = some none →
      (update_response now upd row).fields c = row.fields c) ∧
    (∀ c, row.fields c ≠ none → (update_response now upd row).fields c ≠ none) := by
  constructor
  · intro hnd c hc
    have hfnone := lookup_filter_none_of_null_binding upd c hnd hc
    unfold update_response
    by_cases he : (upd.filter (fun p => p.2.isSome)).isEmpty
    · rw [if_pos he]
    · rw [if_neg he]
      simp only
      rw [hfnone]
  · intro c hc
    unfold update_response
    by_cases he : (upd.filter (fun p => p.2.isSome)).isEmpty
    · rw [if_pos he]
      exact hc
    · rw [if_neg he]
      simp only
      cases hl : (upd.filter (fun p => p.2.isSome)).lookup c with
      | none => exact hc
      | some v =>
        have hv : v.isSome :=
          lookup_value_isSome _ c v (fun p hp => (List.mem_filter.mp hp).2) hl
        intro hcon
        have hvn : v = none := hcon
        rw [hvn] at hv
        cases hv

/-- Witness for C10 at concrete inputs: a payload that nulls `team_id` and
sets `description` leaves the stored `team_id` intact. -/
theorem c10_null_fields_ignored_witness :
    (update_response "t5" [("team_id", none), ("description", some "x")] r1).fields "team_id"
      = some "7" ∧
    (update_response "t5" [("team_id", none), ("description", some "x")] r1).fields "team_id"
      ≠ none := by
  have h := c10_null_fields_ignored "t5" [("team_id", none), ("description", some "x")] r1
  constructor
  · rw [h.1 (by decide) "team_id" (by decide)]
    decide
  · exact h.2 "team_id" (by decide)

theorem scan_all_new (rows : List (Nat × String)) (st : FnScan)
    (hclean : ∀ p ∈ rows, pyStrip p.2 = p.2 ∧ p.2 ≠ "")
    (hfresh : ∀ p ∈ rows, pyLower p.2 ∉ st.existing)
    (hdist : (rows.map (fun p => pyLower p.2)).Nodup) :
    scanFunctionRows rows st =
      { existing := st.existing ++ rows.map (fun p => pyLower p.2),
        skipped := st.skipped, errors := st.errors,
        new_functions := st.new_functions ++ rows.map (fun p => p.2) } := by
  induction rows generalizing st with
  | nil => simp [scanFunctionRows]
  | cons p rest ih =>
    obtain ⟨n, raw⟩ := p
    have hc := hclean (n, raw) (List.mem_cons_self _ _)
    have hf := hfresh (n, raw) (List.mem_cons_self _ _)
    rw [List.map_cons, List.nodup_cons] at hdist
    simp only [scanFunctionRows]
    rw [hc.1, if_neg hc.2]
    have hcont : st.existing.contains (pyLower raw) = false := by
      simpa using hf
    rw [hcont]
    simp only [Bool.false_eq_true, if_false]
    rw [ih _ (fun q hq => hclean q (List.mem_cons_of_mem _ hq)) ?_ hdist.2]
    · simp
    · intro q hq hmem
      rcases List.mem_append.mp hmem with hmem1 | hmem2
      · exact hfresh q (List.mem_cons_of_mem _ hq) hmem1
      · have : pyLower q.2 = pyLower raw := by simpa using hmem2
        exact hdist.1 (this ▸ List.mem_map_of_mem (fun p => pyLower p.2) hq)

theorem scan_all_existing (rows : List (Nat × String)) (st : FnScan)
    (hclean : ∀ p ∈ rows, pyStrip p.2 = p.2 ∧ p.2 ≠ "")
    (hmem : ∀ p ∈ rows, pyLower p.2 ∈ st.existing) :
    scanFunctionRows rows st = { st with skipped := st.skipped + rows.length } := by
  induction rows generalizing st with
  | nil => simp [scanFunctionRows]
  | cons p rest ih =>
    obtain ⟨n, raw⟩ := p
    have hc := hclean (n, raw) (List.mem_cons_self _ _)
    have hm := hmem (n, raw) (List.mem_cons_self _ _)
    simp only [scanFunctionRows]
    rw [hc.1, if_neg hc.2]
    have hcont : st.existing.contains (pyLower raw) = true := by
      simpa using hm
    rw [hcont]
    simp only [if_true]
    rw [ih (⟨st.existing, st.skipped + 1, st.errors, st.new_functions⟩ : FnScan)
      (fun q hq => hclean q (List.mem_cons_of_mem _ hq))
      (fun q hq => hmem q (List.mem_cons_of_mem _ hq))]
    simp only [FnScan.mk.injEq, List.length_cons]
    refine ⟨trivial, by omega, trivial, trivial⟩

theorem foldl_create_function_by_name (ns : List String) (base : ConfigStore) :
    ((ns.foldl create_function_by_name base).functions.map (fun f => f.name)
        = base.functions.map (fun f => f.name) ++ ns) ∧
    (((ns.foldl create_function_by_name base).functions.filter (fun f => f.active)).map
        (fun f => f.name) =
      (base.functions.filter (fun f => f.active)).map (fun f => f.name) ++ ns) ∧
    (ns.foldl create_function_by_name base).teams = base.teams ∧
    (ns.foldl create_function_by_name base).responses = base.responses := by
  induction ns generalizing base with
  | nil => simp
  | cons n rest ih =>
    rw [List.foldl_cons]
    have h := ih (create_function_by_name base n)
    refine ⟨?_, ?_, ?_, ?_⟩
    · rw [h.1]
      simp [create_function_by_name]
    · rw [h.2.1]
      simp [create_function_by_name, List.filter_append]
    · rw [h.2.2.1]
      rfl
    · rw [h.2.2.2]
      rfl

theorem enumFrom_mem_snd {l : List String} {p : Nat × String} (hp : p ∈ l.enumFrom 2) :
    p.2 ∈ l := by
  have := List.mem_map_of_mem Prod.snd hp
  rwa [List.enumFrom_map_snd] at this

theorem enumFrom_map_comp (f : String → String) (l : List String) :
    (l.enumFrom 2).map (fun p => f p.2) = l.map f := by
  have h1 : (l.enumFrom 2).map (fun p => f p.2)
      = ((l.enumFrom 2).map Prod.snd).map f := by
    rw [List.map_map]
    rfl
  rw [h1, List.enumFrom_map_snd]

/-- C9: merge-importing `N` case-insensitively distinct, clean names that are
absent from the store yields `added = N`; importing the identical list again
yields `added = 0`, `skipped = N` and does not change the store; no duplicate
Function is created (the function names stay case-insensitively distinct). -/
theorem c9_merge_import_idempotent (store : ConfigStore) (names : List String)
    (hclean : ∀ n ∈ names, pyStrip n = n ∧ n ≠ "")
    (hdistinct : (names.map pyLower).Nodup)
    (habsent : ∀ n ∈ names, ∀ f ∈ store.functions, pyLower f.name ≠ pyLower n)
    (hstore : (store.functions.map (fun f => pyLower f.name)).Nodup) :
    (import_functions store names "merge").1.success = names.length ∧
    (import_functions store names "merge").1.skipped = 0 ∧
    (import_functions store names "merge").1.errors = [] ∧
    (import_functions ((import_functions store names "merge").2) names "merge").1.success = 0 ∧
    (import_functions ((import_functions store names "merge").2) names "merge").1.skipped
      = names.length ∧
    (import_functions ((import_functions store names "merge").2) names "merge").2 =
      (import_functions store names "merge").2 ∧
    (((import_functions store names "merge").2).functions.map (fun f => pyLower f.name)).Nodup
    := by
  have hclean' : ∀ p ∈ names.enumFrom 2, pyStrip p.2 = p.2 ∧ p.2 ≠ "" :=
    fun p hp => hclean p.2 (enumFrom_mem_snd hp)
  have hdist' : ((names.enumFrom 2).map (fun p => pyLower p.2)).Nodup := by
    rw [enumFrom_map_comp]
    exact hdistinct
  have hfresh : ∀ p ∈ names.enumFrom 2,
      pyLower p.2 ∉ (store.functions.filter (fun f => f.active)).map (fun f => pyLower f.name) := by
    intro p hp hmem
    rcases List.mem_map.mp hmem with ⟨f, hf, hfe⟩
    exact habsent p.2 (enumFrom_mem_snd hp) f (List.mem_filter.mp hf).1 hfe
  have hscan1 := scan_all_new (names.enumFrom 2)
    { existing := (store.functions.filter (fun f => f.active)).map (fun f => pyLower f.name),
      skipped := 0, errors := [], new_functions := [] }
    hclean' hfresh hdist'
  rw [enumFrom_map_comp, List.enumFrom_map_snd] at hscan1
  have hrun1 : import_functions store names "merge" =
      ({ success := names.length, skipped := 0, errors := [],
         total_rows := names.length + 0 + 0 },
       names.foldl create_function_by_name store) := by
    unfold import_functions
    rw [hscan1]
    rw [if_neg (by decide : ¬("merge" = "replace"))]
    simp
  have hfold := foldl_create_function_by_name names store
  have store2_names : ((names.foldl create_function_by_name store).functions.map
      (fun f => pyLower f.name)) =
      store.functions.map (fun f => pyLower f.name) ++ names.map pyLower := by
    have h1 : ((names.foldl create_function_by_name store).functions.map
        (fun f => pyLower f.name)) =
        ((names.foldl create_function_by_name store).functions.map (fun f => f.name)).map
          pyLower := by
      rw [List.map_map]
      rfl
    rw [h1, hfold.1, List.map_append, List.map_map]
    rfl
  have store2_active : (((names.foldl create_function_by_name store).functions.filter
      (fun f => f.active)).map (fun f => pyLower f.name)) =
      ((store.functions.filter (fun f => f.active)).map (fun f => pyLower f.name))
        ++ names.map pyLower := by
    have h1 : (((names.foldl create_function_by_name store).functions.filter
        (fun f => f.active)).map (fun f => pyLower f.name)) =
        (((names.foldl create_function_by_name store).functions.filter
          (fun f => f.active)).map (fun f => f.name)).map pyLower := by
      rw [List.map_map]
      rfl
    have h2 : ((store.functions.filter (fun f => f.active)).map (fun f => pyLower f.name)) =
        ((store.functions.filter (fun f => f.active)).map (fun f => f.name)).map pyLower := by
      rw [List.map_map]
      rfl
    rw [h1, hfold.2.1, List.map_append, h2]
  have hmem2 : ∀ p ∈ names.enumFrom 2,
      pyLower p.2 ∈ ((names.foldl create_function_by_name store).functions.filter
        (fun f => f.active)).map (fun f => pyLower f.name) := by
    intro p hp
    rw [store2_active]
    exact List.mem_append_right _ (List.mem_map_of_mem pyLower (enumFrom_mem_snd hp))
  have hscan2 := scan_all_existing (names.enumFrom 2)
    { existing := ((names.foldl create_function_by_name store).functions.filter
        (fun f => f.active)).map (fun f => pyLower f.name),
      skipped := 0, errors := [], new_functions := [] }
    hclean' hmem2
  have hlen2 : (names.enumFrom 2).length = names.length := by
    rw [List.enumFrom_length]
  have hrun2 : import_functions (names.foldl create_function_by_name store) names "merge" =
      ({ success := 0, skipped := names.length, errors := [],
         total_rows := 0 + names.length + 0 },
       names.foldl create_function_by_name store) := by
    unfold import_functions
    rw [hscan2]
    rw [if_neg (by decide : ¬("merge" = "replace"))]
    simp [hlen2]
  rw [hrun1]
  simp only
  rw [hrun2]
  refine ⟨by trivial, by trivial, by trivial, by trivial, by trivial, by trivial, ?_⟩
  rw [store2_names]
  refine List.Nodup.append hstore hdistinct ?_
  intro a ha1 ha2
  rcases List.mem_map.mp ha1 with ⟨f, hf, hfe⟩
  rcases List.mem_map.mp ha2 with ⟨n, hn, hne⟩
  exact habsent n hn f hf (by rw [hfe, hne])

/-- Witness for C9 at a concrete store: two fresh names import with
`added = 2`, and re-importing the same list yields `added = 0, skipped = 2`. -/
theorem c9_merge_import_idempotent_witness :
    (import_functions impStore ["Sales", "Marketing"] "merge").1.success = 2 ∧
    (import_functions ((import_functions impStore ["Sales", "Marketing"] "merge").2)
      ["Sales", "Marketing"] "merge").1.success = 0 ∧
    (import_functions ((import_functions impStore ["Sales", "Marketing"] "merge").2)
      ["Sales", "Marketing"] "merge").1.skipped = 2 := by
  have h := c9_merge_import_idempotent impStore ["Sales", "Marketing"]
    (by decide) (by decide) (by decide) (by decide)
  refine ⟨?_, h.2.2.2.1, ?_⟩
  · rw [h.1]
    rfl
  · rw [h.2.2.2.2.1]
    rfl

theorem importScan_spec (pf : String → Option Rat) (ctx : ImportCtx)
    (ps : List (Nat × CsvRow)) (e0 : List (Nat × List String)) (s0 : List StagedResponse) :
    ps.foldl
      (fun (acc : List (Nat × List String) × List StagedResponse) p =>
        match processRow pf ctx p.2 with
        | .error es => (acc.1 ++ [(p.1, es)], acc.2)
        | .ok staged => (acc.1, acc.2 ++ [staged]))
      (e0, s0)
    = (e0 ++ ps.filterMap (fun p =>
         match processRow pf ctx p.2 with
         | .error es => some (p.1, es)
         | .ok _ => none),
       s0 ++ ps.filterMap (fun p =>
         match processRow pf ctx p.2 with
         | .ok staged => some staged
         | .error _ => none)) := by
  induction ps generalizing e0 s0 with
  | nil => simp
  | cons p ps ih =>
    rw [List.foldl_cons]
    cases hp : processRow pf ctx p.2 with
    | error es =>
      simp only [hp, List.filterMap_cons]
      rw [ih]
      simp
    | ok staged =>
      simp only [hp, List.filterMap_cons]
      rw [ih]
      simp

/-- C4: per-row validation errors are collected in full and reported with the
row's number, the batch continues past failing rows, and every well-formed
row is still imported (appended to the collection).  At the spec's concrete
example, the row with a bogus method_type and a missing description is
reported with both errors while the well-formed row in the same file
is imported. -/
theorem c4_import_collects_errors_and_continues (pf : String → Option Rat)
    (ctx : ImportCtx) (mode : String) (rows : List CsvRow)
    (pre : List StagedResponse) :
    ((import_responses pf ctx mode rows pre).1.errors =
      (rows.enumFrom 2).filterMap (fun p =>
        match processRow pf ctx p.2 with
        | .error es => some (p.1, es)
        | .ok _ => none)) ∧
    ((import_responses pf ctx mode rows pre).1.success =
      ((rows.enumFrom 2).filterMap (fun p =>
        match processRow pf ctx p.2 with
        | .ok staged => some staged
        | .error _ => none)).length) ∧
    ((import_responses pf ctx "append" rows pre).2 =
      pre ++ (rows.enumFrom 2).filterMap (fun p =>
        match processRow pf ctx p.2 with
        | .ok staged => some staged
        | .error _ => none)) ∧
    processRow pfNone exCtx exRow2 =
      Except.error ["Invalid method_type: bogus", "Missing description"] ∧
    (import_responses pfNone exCtx "append" [exRow2, exRow3] []).1 =
      { success := 1, errors := [(2, ["Invalid method_type: bogus", "Missing description"])],
        total_rows := 2 } ∧
    (import_responses pfNone exCtx "append" [exRow2, exRow3] []).2 = [exStaged3] := by
  refine ⟨?_, ?_, ?_, by decide, by decide, by decide⟩
  · unfold import_responses
    rw [importScan_spec]
    simp
  · unfold import_responses
    rw [importScan_spec]
    simp
  · unfold import_responses
    rw [importScan_spec]
    simp

theorem insertByDesc_length {α : Type} (key : α → Nat) (x : α) (l : List α) :
    (insertByDesc key x l).length = l.length + 1 := by
  induction l with
  | nil => rfl
  | cons y ys ih =>
    unfold insertByDesc
    by_cases h : key x ≥ key y
    · rw [if_pos h]
      rfl
    · rw [if_neg h]
      simp [ih]

theorem sortByDesc_length {α : Type} (key : α → Nat) (xs : List α) :
    (sortByDesc key xs).length = xs.length := by
  induction xs with
  | nil => rfl
  | cons x ys ih =>
    unfold sortByDesc at ih ⊢
    rw [List.foldr_cons, insertByDesc_length, ih]
    rfl

/-- C5 fails on the code: `export_responses` reads the entries through
`crud.get_responses()` with its default `limit = 100`, so a 101-entry
collection exports only 100 rows — the 101st entry cannot survive the
export/import round trip, although the route's own docstring promises to
export all entries. -/
theorem c5_export_truncates_at_100 :
    store101.length = 101 ∧
    (export_responses [] [] [] [] store101).length = 100 := by
  constructor
  · rw [store101, List.length_map, List.length_range]
  · rw [export_responses, List.length_map, get_responses, List.length_take,
      List.length_drop, sortByDesc_length, store101, List.length_map, List.length_range]
    rfl
